import Mathlib

/-!
Verification of the restaurant-ordering state layer
(`src/context/RestaurantContext.tsx` and the backend gateway contracts).

The TypeScript code is shallowly embedded: React state updates become pure
functions on explicit state records, backend calls become oracle parameters
(the response the backend would give), and the writes issued to the backend
are collected in an explicit list.  JavaScript numbers that hold money are
modelled as rationals; quantities as integers (the code clamps them with
`Math.max(0, _)`); JS string truthiness (`!x` is true for both `null` and
`""`) is modelled explicitly on `Option String`.
-/

/-- A menu item as transformed by `fetchMenu` (the fields the cart and order
logic reads). -/
structure MenuItem where
  id : String
  name : String
  price : Rat
  category : String
  inStock : Bool
deriving DecidableEq, Repr

/-- A cart line: the menu-item snapshot spread together with a quantity
(`{ ...item, quantity }`). -/
structure CartItem where
  id : String
  name : String
  price : Rat
  category : String
  inStock : Bool
  quantity : Int
deriving DecidableEq, Repr

/-- The `addToCart` action from `RestaurantContext.tsx`: no-op when the item is marked
out of stock; otherwise increment the matching line or append a fresh line
with quantity 1. -/
def addToCart (item : MenuItem) (prev : List CartItem) : List CartItem :=
  if item.inStock = false then prev
  else if prev.any (fun i => i.id = item.id) then
    prev.map (fun i =>
      if i.id = item.id then { i with quantity := i.quantity + 1 } else i)
  else
    prev ++ [{ id := item.id, name := item.name, price := item.price,
               category := item.category, inStock := item.inStock, quantity := 1 }]

/-- The `updateQuantity` action from `RestaurantContext.tsx`: clamp the matching line's
quantity at zero (`Math.max(0, q + delta)`) and then drop every line whose
quantity is not positive. -/
def updateQuantity (itemId : String) (delta : Int) (prev : List CartItem) :
    List CartItem :=
  (prev.map (fun i =>
    if i.id = itemId then { i with quantity := max 0 (i.quantity + delta) } else i)).filter
    (fun i => decide (0 < i.quantity))

/-- One cart action, for stating the all-sequences invariant. -/
inductive CartOp where
  | add (item : MenuItem)
  | upd (itemId : String) (delta : Int)
deriving Repr

def applyCartOp (c : List CartItem) : CartOp → List CartItem
  | .add item => addToCart item c
  | .upd itemId delta => updateQuantity itemId delta c

/-- Run a sequence of `addToCart` / `updateQuantity` calls from the empty
cart. -/
def runCartOps (ops : List CartOp) : List CartItem :=
  ops.foldl applyCartOp []

def cartIds (c : List CartItem) : List String := c.map (fun i => i.id)

/-- The cart invariant: no two lines share an item id, and every quantity is
strictly positive. -/
def CartInv (c : List CartItem) : Prop :=
  (cartIds c).Nodup ∧ ∀ i ∈ c, 0 < i.quantity

/-- Order statuses used across the dashboard and the context. -/
inductive OrderStatus where
  | PENDING | PREPARING | READY | SERVED | PAID | CANCELLED
deriving DecidableEq, Repr

/-- The `Order` shape produced by `transformOrder` / stored in `activeOrders`
and `lastOrder` (`tableId` holds the display number string there). -/
structure Order where
  id : String
  restaurantId : String
  tableId : String
  items : List CartItem
  status : OrderStatus
  timestamp : Int
  total : Rat
deriving DecidableEq, Repr

/-- The restaurant profile row (`restaurants` table fields the context uses). -/
structure RestaurantProfile where
  id : String
  name : String
  type : String
  location : String
  phone : String
  email : String
deriving DecidableEq, Repr

inductive ViewMode where
  | LANDING | ONBOARDING | APP | PRIVACY | TERMS | CONTACT
deriving DecidableEq, Repr

/-- One row passed to `ordersApi.createOrderItems`. -/
structure OrderItemRow where
  order_id : String
  menu_item_id : String
  quantity : Int
  price : Rat
deriving DecidableEq, Repr

/-- A write request issued to the backend (an insert attempt, successful or
not). -/
inductive BackendWrite where
  | insertTable (restaurant_id table_number : String)
  | insertOrder (restaurant_id table_id : String) (status : OrderStatus) (total_amount : Rat)
  | insertOrderItems (rows : List OrderItemRow)
deriving DecidableEq, Repr

/-- JS truthiness of a `string | null` value: `!x` holds for `null` and for
the empty string. -/
def jsTruthyStr : Option String → Bool
  | none => false
  | some s => !s.isEmpty

/-- Backend responses consumed during one `placeOrder` run. -/
structure PlaceOrderBackend where
  /-- result of the `tables` select in `resolveTableId` (`maybeSingle` data). -/
  tableLookup : Option String
  /-- result of the `tables` insert in `resolveTableId`: new id, or error. -/
  tableInsert : Except String String
  /-- result of `ordersApi.createOrder`: the new order id, or error. -/
  orderInsert : Except String String
  /-- error of `ordersApi.createOrderItems`, if any. -/
  itemsInsertError : Option String
  /-- Value of `Date.now()` at the time the receipt is built. -/
  now : Int

/-- The `resolveTableId` helper from `RestaurantContext.tsx`: look the display number up
in `tables`; on a miss, try to insert the row (this fails for guests, which
is swallowed and reported as `null`).  Returns the resolved id together with
the write attempts issued. -/
def resolveTableId (restaurant_id table_number : String)
    (b : PlaceOrderBackend) : Option String × List BackendWrite :=
  match b.tableLookup with
  | some tid => (some tid, [])
  | none =>
    match b.tableInsert with
    | .ok tid => (some tid, [BackendWrite.insertTable restaurant_id table_number])
    | .error _ => (none, [BackendWrite.insertTable restaurant_id table_number])

/-- The slice of the provider state that the verified actions touch. -/
structure AppState where
  viewMode : ViewMode
  isLoading : Bool
  error : Option String
  isPlacingOrder : Bool
  currentRestaurant : Option RestaurantProfile
  tableId : Option String
  tableNumber : Option String
  cart : List CartItem
  isCartOpen : Bool
  lastOrder : Option Order
deriving DecidableEq, Repr

/-- Subtotal exactly as `placeOrder` computes it:
`cart.reduce((sum, item) => sum + item.price * item.quantity, 0)`. -/
def cartSubtotal (cart : List CartItem) : Rat :=
  cart.foldl (fun sum item => sum + item.price * (item.quantity : Rat)) 0

/-- The `placeOrder` action from `RestaurantContext.tsx`, as a function from the state
and the backend's responses to the next state and the list of write attempts
issued.  The early guard is `cart.length === 0 || !currentRestaurant ||
!tableNumber`; any thrown error is caught (alert shown) with
`isPlacingOrder` reset in `finally`. -/
def placeOrder (s : AppState) (b : PlaceOrderBackend) :
    AppState × List BackendWrite :=
  match s.currentRestaurant, s.tableNumber with
  | some r, some tn =>
    if s.cart.isEmpty || tn.isEmpty then (s, [])
    else
      let (rtid, w1) := resolveTableId r.id tn b
      match rtid with
      | none => ({ s with isPlacingOrder := false }, w1)
      | some resolvedTid =>
        let subtotal := cartSubtotal s.cart
        let tax := subtotal * (5 / 100 : Rat)
        let totalAmount := subtotal + tax
        let orderWrite := BackendWrite.insertOrder r.id resolvedTid
          OrderStatus.PENDING totalAmount
        match b.orderInsert with
        | .error _ => ({ s with isPlacingOrder := false }, w1 ++ [orderWrite])
        | .ok orderId =>
          let itemsWrite := BackendWrite.insertOrderItems
            (s.cart.map (fun item =>
              { order_id := orderId, menu_item_id := item.id,
                quantity := item.quantity, price := item.price }))
          match b.itemsInsertError with
          | some _ => ({ s with isPlacingOrder := false }, w1 ++ [orderWrite, itemsWrite])
          | none =>
            ({ s with
                cart := [], isCartOpen := false, isPlacingOrder := false,
                lastOrder := some
                  { id := orderId, restaurantId := r.id, tableId := tn,
                    items := s.cart, status := OrderStatus.PENDING,
                    total := totalAmount, timestamp := b.now } },
             w1 ++ [orderWrite, itemsWrite])
  | _, _ => (s, [])

/-- The `switchRestaurant` action from `RestaurantContext.tsx`.  The backend result of
`restaurantsApi.getRestaurant`: `.error msg` is a gateway error, `.ok none`
is a null row (`"Restaurant not found"` is thrown), `.ok (some p)` is the
fetched profile. -/
def switchRestaurant (s : AppState)
    (result : Except String (Option RestaurantProfile)) : AppState :=
  match result with
  | .error msg => { s with error := some msg, isLoading := false }
  | .ok none => { s with error := some "Restaurant not found", isLoading := false }
  | .ok (some data) =>
      { s with currentRestaurant := some data, cart := [], lastOrder := none,
               viewMode := ViewMode.APP, error := none, isLoading := false }

/-- The optimistic patch both applied and (on failure) rolled back by
`updateOrderStatus`. -/
def patchOrderStatus (orders : List Order) (orderId : String)
    (status : OrderStatus) : List Order :=
  orders.map (fun o => if o.id = orderId then { o with status := status } else o)

/-- The `updateOrderStatus` action from `RestaurantContext.tsx`, restricted to the order
list: snapshot `previousOrders`, apply the optimistic patch, and restore the
snapshot when the backend write fails. -/
def updateOrderStatus (orders : List Order) (orderId : String)
    (status : OrderStatus) (writeOk : Bool) : List Order :=
  let previousOrders := orders
  let optimistic := patchOrderStatus orders orderId status
  if writeOk then optimistic else previousOrders

/-- The `UPDATE` branch of `handleRealtimeOrder`: patch just the status of
the order whose id matches the event payload. -/
def handleRealtimeOrderUpdate (orders : List Order) (eventOrderId : String)
    (eventStatus : OrderStatus) : List Order :=
  orders.map (fun o =>
    if o.id = eventOrderId then { o with status := eventStatus } else o)

/-- One joined `order_items` row (`menu_items` relation plus quantity). -/
structure DbOrderItem where
  menu_items : MenuItem
  quantity : Int
deriving DecidableEq, Repr

/-- One `orders` row as the gateway returns it (with its joins). -/
structure DbOrder where
  id : String
  restaurant_id : String
  /-- Value of `dbOrder.tables?.table_number`. -/
  table_number : Option String
  order_items : List DbOrderItem
  status : OrderStatus
  /-- Value of `Date.parse(dbOrder.created_at)`. -/
  created_at : Int
  total_amount : Rat
deriving DecidableEq, Repr

/-- The `transformOrder` helper from `RestaurantContext.tsx` (`tables?.table_number ||
'?'` falls back on both a missing join and an empty string). -/
def transformOrder (d : DbOrder) : Order :=
  { id := d.id
    restaurantId := d.restaurant_id
    tableId := match d.table_number with
      | some s => if s.isEmpty then "?" else s
      | none => "?"
    items := d.order_items.map (fun oi =>
      { id := oi.menu_items.id, name := oi.menu_items.name,
        price := oi.menu_items.price, category := oi.menu_items.category,
        inStock := oi.menu_items.inStock, quantity := oi.quantity })
    status := d.status
    timestamp := d.created_at
    total := d.total_amount }

/-- Modelled from the spec: `ordersApi.getActiveOrders` (the orders gateway
file is not under src/).  Per §4.2, the gateway returns exactly the
requested zero-based page of the recency-descending active-order rows, with
the fixed page size as limit. -/
def getActiveOrders (rows : List DbOrder) (page pageSize : Nat) : List DbOrder :=
  (rows.drop (page * pageSize)).take pageSize

/-- The pagination slice of the provider state. -/
structure OrdersState where
  activeOrders : List Order
  ordersPage : Nat
  hasMoreOrders : Bool
deriving DecidableEq, Repr

/-- The `fetchOrders` action from `RestaurantContext.tsx`: bail out without a current
restaurant, or when loading more with `hasMoreOrders` already false; fetch
the page from the gateway (errors are caught and leave the list untouched);
on `reset` replace the list, otherwise append; `hasMoreOrders` becomes
whether the page came back full (`data.length === 20`). -/
def fetchOrders (hasRestaurant : Bool) (s : OrdersState) (reset : Bool)
    (backend : Except String (List DbOrder)) : OrdersState :=
  if !hasRestaurant then s
  else if !reset && !s.hasMoreOrders then s
  else
    let page := if reset then 0 else s.ordersPage + 1
    match backend with
    | .error _ => s
    | .ok rows =>
      let data := getActiveOrders rows page 20
      let transformed := data.map transformOrder
      if reset then
        { activeOrders := transformed, ordersPage := 0,
          hasMoreOrders := data.length == 20 }
      else
        { activeOrders := s.activeOrders ++ transformed, ordersPage := page,
          hasMoreOrders := data.length == 20 }

/-- The pieces of `window.location` that `parseURLParams` reads: the search
query string's `rid` / `table` values, whether the hash contains a `?`, and
the hash query string's `rid` / `table` values. -/
structure URLLocation where
  searchRid : Option String
  searchTable : Option String
  hashHasQuery : Bool
  hashRid : Option String
  hashTable : Option String
deriving DecidableEq, Repr

/-- The `rid` resolution of `parseURLParams`: start from the search params
(only a truthy value is taken), then, when the hash carries a query string,
a truthy hash value overwrites it. -/
def parseURLRid (u : URLLocation) : Option String :=
  let rid := if jsTruthyStr u.searchRid then u.searchRid else none
  if u.hashHasQuery && jsTruthyStr u.hashRid then u.hashRid else rid

/-- The `table` resolution of `parseURLParams`, same shape as `parseURLRid`. -/
def parseURLTable (u : URLLocation) : Option String :=
  let t := if jsTruthyStr u.searchTable then u.searchTable else none
  if u.hashHasQuery && jsTruthyStr u.hashTable then u.hashTable else t

/-- Fixture: a restaurant profile for the concrete witnesses. -/
def sampleRestaurant : RestaurantProfile :=
  { id := "R1", name := "Trattoria", type := "Fine Dining", location := "Rome",
    phone := "555", email := "owner@example.com" }

/-- Fixture: the two-line cart of the pricing scenario
({A, qty 2, price 100}, {B, qty 1, price 50}). -/
def sampleCartAB : List CartItem :=
  [{ id := "A", name := "Dish A", price := 100, category := "main",
     inStock := true, quantity := 2 },
   { id := "B", name := "Dish B", price := 50, category := "starter",
     inStock := true, quantity := 1 }]

/-- Fixture: an app state at table 5 of the sample restaurant with the
scenario cart. -/
def sampleStateAB : AppState :=
  { viewMode := ViewMode.APP, isLoading := false, error := none,
    isPlacingOrder := false, currentRestaurant := some sampleRestaurant,
    tableId := some "TID1", tableNumber := some "5", cart := sampleCartAB,
    isCartOpen := true, lastOrder := none }

/-- Fixture: backend responses for a fully successful `placeOrder` run. -/
def sampleBackendOk : PlaceOrderBackend :=
  { tableLookup := some "TID1", tableInsert := Except.ok "TIDNEW",
    orderInsert := Except.ok "O9", itemsInsertError := none, now := 1000 }

/-- Fixture: backend responses where the table lookup misses but the insert
succeeds. -/
def sampleBackendCreate : PlaceOrderBackend :=
  { tableLookup := none, tableInsert := Except.ok "TIDNEW",
    orderInsert := Except.ok "O9", itemsInsertError := none, now := 1000 }

/-- Fixture: two in-memory orders for the status-update witnesses. -/
def sampleOrders : List Order :=
  [{ id := "O1", restaurantId := "R1", tableId := "5", items := sampleCartAB,
     status := OrderStatus.PENDING, timestamp := 10, total := 525 / 2 },
   { id := "O2", restaurantId := "R1", tableId := "7", items := [],
     status := OrderStatus.PREPARING, timestamp := 20, total := 50 }]

/-- Fixture: a gateway row list of 21 active orders for the pagination
witness. -/
def sampleDbRows : List DbOrder :=
  (List.range 21).map (fun n =>
    { id := toString n, restaurant_id := "R1", table_number := some "5",
      order_items := [], status := OrderStatus.PENDING,
      created_at := Int.ofNat n, total_amount := 10 })

theorem strIsEmpty_false {s : String} (h : s ≠ "") : s.isEmpty = false := by
  rw [Bool.eq_false_iff]
  intro hc
  exact h ((String.isEmpty_iff s).mp hc)

theorem cartIds_map_of_id_eq {f : CartItem → CartItem}
    (hf : ∀ i, (f i).id = i.id) (c : List CartItem) :
    cartIds (c.map f) = cartIds c := by
  unfold cartIds
  induction c with
  | nil => rfl
  | cons a t ih => simp only [List.map_cons, hf a, ih]

theorem addToCart_of_stock_false (item : MenuItem) (c : List CartItem)
    (h : item.inStock = false) : addToCart item c = c := by
  unfold addToCart
  simp [h]

theorem addToCart_of_found (item : MenuItem) (c : List CartItem)
    (h : item.inStock = true)
    (hany : c.any (fun i => i.id = item.id) = true) :
    addToCart item c = c.map (fun i =>
      if i.id = item.id then { i with quantity := i.quantity + 1 } else i) := by
  unfold addToCart
  simp [h, hany]

theorem addToCart_of_not_found (item : MenuItem) (c : List CartItem)
    (h : item.inStock = true)
    (hany : c.any (fun i => i.id = item.id) = false) :
    addToCart item c = c ++
      [{ id := item.id, name := item.name, price := item.price,
         category := item.category, inStock := item.inStock, quantity := 1 }] := by
  unfold addToCart
  simp [h, hany]

theorem addToCart_preserves_inv (item : MenuItem) (c : List CartItem)
    (h : CartInv c) : CartInv (addToCart item c) := by
  obtain ⟨hnd, hq⟩ := h
  by_cases hstock : item.inStock = false
  · rw [addToCart_of_stock_false item c hstock]
    exact ⟨hnd, hq⟩
  · rw [Bool.not_eq_false] at hstock
    by_cases hany : c.any (fun i => i.id = item.id) = true
    · rw [addToCart_of_found item c hstock hany]
      refine ⟨?_, ?_⟩
      · rw [cartIds_map_of_id_eq]
        · exact hnd
        · intro i
          by_cases hi : i.id = item.id
          · rw [if_pos hi]
          · rw [if_neg hi]
      · intro i hi
        rw [List.mem_map] at hi
        obtain ⟨j, hj, rfl⟩ := hi
        have hqj := hq j hj
        by_cases hid : j.id = item.id
        · rw [if_pos hid]
          show 0 < j.quantity + 1
          omega
        · rw [if_neg hid]
          exact hqj
    · rw [Bool.not_eq_true] at hany
      rw [addToCart_of_not_found item c hstock hany]
      have hnotmem : item.id ∉ cartIds c := by
        intro hmem
        rw [cartIds, List.mem_map] at hmem
        obtain ⟨j, hj, hjid⟩ := hmem
        have := List.any_eq_false.mp hany j hj
        simp [hjid] at this
      refine ⟨?_, ?_⟩
      · rw [cartIds, List.map_append, List.nodup_append]
        refine ⟨hnd, List.nodup_singleton _, ?_⟩
        intro a ha hb
        simp only [List.map_cons, List.map_nil, List.mem_singleton] at hb
        exact hnotmem (hb ▸ ha)
      · intro i hi
        rw [List.mem_append] at hi
        rcases hi with hi | hi
        · exact hq i hi
        · simp only [List.mem_singleton] at hi
          subst hi
          norm_num

theorem updateQuantity_preserves_inv (itemId : String) (delta : Int)
    (c : List CartItem) (h : CartInv c) :
    CartInv (updateQuantity itemId delta c) := by
  obtain ⟨hnd, _⟩ := h
  refine ⟨?_, ?_⟩
  · have hmap : cartIds (c.map (fun i =>
        if i.id = itemId then { i with quantity := max 0 (i.quantity + delta) } else i)) =
        cartIds c := by
      apply cartIds_map_of_id_eq
      intro i
      by_cases hi : i.id = itemId
      · rw [if_pos hi]
      · rw [if_neg hi]
    have hsub : List.Sublist (updateQuantity itemId delta c)
        (c.map (fun i =>
          if i.id = itemId then { i with quantity := max 0 (i.quantity + delta) } else i)) :=
      List.filter_sublist _
    have hids : List.Sublist (cartIds (updateQuantity itemId delta c)) (cartIds c) := by
      rw [← hmap]
      exact hsub.map _
    exact hnd.sublist hids
  · intro i hi
    unfold updateQuantity at hi
    rw [List.mem_filter] at hi
    simpa using hi.2

theorem cart_ops_inv_aux (ops : List CartOp) (c : List CartItem)
    (h : CartInv c) : CartInv (ops.foldl applyCartOp c) := by
  induction ops generalizing c with
  | nil => exact h
  | cons op rest ih =>
    simp only [List.foldl_cons]
    apply ih
    cases op with
    | add item => exact addToCart_preserves_inv item c h
    | upd itemId delta => exact updateQuantity_preserves_inv itemId delta c h

/-- C1: for every sequence of `addToCart` / `updateQuantity` calls starting
from the empty cart, the resulting cart never contains two lines with the
same item id, and every line has quantity strictly greater than 0. -/
theorem runCartOps_inv (ops : List CartOp) : CartInv (runCartOps ops) :=
  cart_ops_inv_aux ops [] ⟨List.nodup_nil, by intro i hi; cases hi⟩

/-- C2: the `addToCart` action is a no-op on an out-of-stock item; otherwise, on a cart
whose line ids are distinct, it increments the quantity of the existing
matching line by 1 leaving every other line unchanged, and appends a single
fresh line with quantity 1 when no line matches. -/
theorem addToCart_cases (item : MenuItem) (cart : List CartItem)
    (hnd : (cartIds cart).Nodup) :
    (item.inStock = false → addToCart item cart = cart) ∧
    (item.inStock = true →
      (∃ i ∈ cart, i.id = item.id) →
      (addToCart item cart).length = cart.length ∧
      ∀ k : Nat, ∀ i : CartItem, cart[k]? = some i →
        (i.id = item.id →
          (addToCart item cart)[k]? = some { i with quantity := i.quantity + 1 }) ∧
        (i.id ≠ item.id → (addToCart item cart)[k]? = some i)) ∧
    (item.inStock = true →
      (∀ i ∈ cart, i.id ≠ item.id) →
      addToCart item cart = cart ++
        [{ id := item.id, name := item.name, price := item.price,
           category := item.category, inStock := item.inStock, quantity := 1 }]) := by
  refine ⟨?_, ?_, ?_⟩
  · intro hstock
    unfold addToCart
    simp [hstock]
  · intro hstock hex
    have hany : cart.any (fun i => i.id = item.id) = true := by
      rw [List.any_eq_true]
      obtain ⟨i, hi, hid⟩ := hex
      exact ⟨i, hi, by simp [hid]⟩
    have heq : addToCart item cart = cart.map (fun i =>
        if i.id = item.id then { i with quantity := i.quantity + 1 } else i) := by
      unfold addToCart
      simp [hstock, hany]
    rw [heq]
    refine ⟨List.length_map _ _, ?_⟩
    intro k i hk
    rw [List.getElem?_map, hk]
    constructor
    · intro hid
      simp [hid]
    · intro hid
      simp [hid]
  · intro hstock hnone
    have hany : cart.any (fun i => i.id = item.id) = false := by
      rw [List.any_eq_false]
      intro i hi
      simp [hnone i hi]
    unfold addToCart
    simp [hstock, hany]

/-- Witness for C2 at a concrete cart and item. -/
theorem addToCart_cases_witness :
    (cartIds [{ id := "A", name := "Dish A", price := 100, category := "main",
                inStock := true, quantity := 2 }]).Nodup ∧
    (let itemA : MenuItem :=
      { id := "A", name := "Dish A", price := 100, category := "main", inStock := true }
     let cart0 : List CartItem :=
      [{ id := "A", name := "Dish A", price := 100, category := "main",
         inStock := true, quantity := 2 }]
     (itemA.inStock = false → addToCart itemA cart0 = cart0) ∧
     (itemA.inStock = true →
       (∃ i ∈ cart0, i.id = itemA.id) →
       (addToCart itemA cart0).length = cart0.length ∧
       ∀ k : Nat, ∀ i : CartItem, cart0[k]? = some i →
         (i.id = itemA.id →
           (addToCart itemA cart0)[k]? = some { i with quantity := i.quantity + 1 }) ∧
         (i.id ≠ itemA.id → (addToCart itemA cart0)[k]? = some i)) ∧
     (itemA.inStock = true →
       (∀ i ∈ cart0, i.id ≠ itemA.id) →
       addToCart itemA cart0 = cart0 ++
         [{ id := itemA.id, name := itemA.name, price := itemA.price,
            category := itemA.category, inStock := itemA.inStock, quantity := 1 }])) :=
  ⟨by decide, addToCart_cases _ _ (by decide)⟩

/-- C3: when the cart is empty, the current restaurant is missing, or the
table number is missing, `placeOrder` issues no backend write and leaves the
state unchanged. -/
theorem placeOrder_noop (s : AppState) (b : PlaceOrderBackend)
    (h : s.cart = [] ∨ s.currentRestaurant = none ∨ s.tableNumber = none) :
    placeOrder s b = (s, []) := by
  rcases h with h | h | h
  · cases hr : s.currentRestaurant with
    | none => simp [placeOrder, hr]
    | some r =>
      cases ht : s.tableNumber with
      | none => simp [placeOrder, hr, ht]
      | some tn => simp [placeOrder, hr, ht, h]
  · simp [placeOrder, h]
  · cases hr : s.currentRestaurant with
    | none => simp [placeOrder, hr]
    | some r => simp [placeOrder, hr, h]

/-- Witness for C3: an empty cart at a live table is a strict no-op. -/
theorem placeOrder_noop_witness :
    ({ sampleStateAB with cart := [] } : AppState).cart = [] ∧
    placeOrder { sampleStateAB with cart := [] } sampleBackendOk =
      ({ sampleStateAB with cart := [] }, []) :=
  ⟨rfl, placeOrder_noop _ _ (Or.inl rfl)⟩

/-- C5: a failed `updateOrderStatus` write restores the exact pre-call order
list; a successful one sets the matching order's status to the new status
and leaves every other order unchanged. -/
theorem updateOrderStatus_spec (orders : List Order) (orderId : String)
    (status : OrderStatus) :
    updateOrderStatus orders orderId status false = orders ∧
    (updateOrderStatus orders orderId status true).length = orders.length ∧
    ∀ k : Nat, ∀ o : Order, orders[k]? = some o →
      (o.id = orderId →
        (updateOrderStatus orders orderId status true)[k]? =
          some { o with status := status }) ∧
      (o.id ≠ orderId →
        (updateOrderStatus orders orderId status true)[k]? = some o) := by
  refine ⟨rfl, List.length_map _ _, ?_⟩
  intro k o hk
  have hred : updateOrderStatus orders orderId status true =
      patchOrderStatus orders orderId status := rfl
  rw [hred]
  unfold patchOrderStatus
  rw [List.getElem?_map, hk]
  constructor
  · intro h
    simp [h]
  · intro h
    simp [h]

/-- Witness for C5 on a concrete two-order list. -/
theorem updateOrderStatus_spec_witness :
    updateOrderStatus sampleOrders "O1" OrderStatus.READY false = sampleOrders ∧
    (updateOrderStatus sampleOrders "O1" OrderStatus.READY true).length =
      sampleOrders.length ∧
    ∀ k : Nat, ∀ o : Order, sampleOrders[k]? = some o →
      (o.id = "O1" →
        (updateOrderStatus sampleOrders "O1" OrderStatus.READY true)[k]? =
          some { o with status := OrderStatus.READY }) ∧
      (o.id ≠ "O1" →
        (updateOrderStatus sampleOrders "O1" OrderStatus.READY true)[k]? = some o) :=
  updateOrderStatus_spec sampleOrders "O1" OrderStatus.READY

/-- C6: a realtime order-status-change event patches exactly the status
field of the matching order; every other field and every other order is
untouched. -/
theorem handleRealtimeOrderUpdate_frame (orders : List Order)
    (eventOrderId : String) (eventStatus : OrderStatus) :
    (handleRealtimeOrderUpdate orders eventOrderId eventStatus).length =
      orders.length ∧
    ∀ k : Nat, ∀ o : Order, orders[k]? = some o →
      ∃ o', (handleRealtimeOrderUpdate orders eventOrderId eventStatus)[k]? = some o' ∧
        o'.id = o.id ∧ o'.restaurantId = o.restaurantId ∧ o'.tableId = o.tableId ∧
        o'.items = o.items ∧ o'.timestamp = o.timestamp ∧ o'.total = o.total ∧
        (o.id = eventOrderId → o'.status = eventStatus) ∧
        (o.id ≠ eventOrderId → o'.status = o.status) := by
  refine ⟨List.length_map _ _, ?_⟩
  intro k o hk
  unfold handleRealtimeOrderUpdate
  rw [List.getElem?_map, hk]
  by_cases h : o.id = eventOrderId
  · exact ⟨{ o with status := eventStatus }, by simp [h], rfl, rfl, rfl, rfl, rfl,
      rfl, fun _ => rfl, fun hne => absurd h hne⟩
  · exact ⟨o, by simp [h], rfl, rfl, rfl, rfl, rfl, rfl, fun he => absurd he h,
      fun _ => rfl⟩

/-- Witness for C6 on a concrete two-order list. -/
theorem handleRealtimeOrderUpdate_frame_witness :
    (handleRealtimeOrderUpdate sampleOrders "O2" OrderStatus.READY).length =
      sampleOrders.length ∧
    ∀ k : Nat, ∀ o : Order, sampleOrders[k]? = some o →
      ∃ o', (handleRealtimeOrderUpdate sampleOrders "O2" OrderStatus.READY)[k]? = some o' ∧
        o'.id = o.id ∧ o'.restaurantId = o.restaurantId ∧ o'.tableId = o.tableId ∧
        o'.items = o.items ∧ o'.timestamp = o.timestamp ∧ o'.total = o.total ∧
        (o.id = "O2" → o'.status = OrderStatus.READY) ∧
        (o.id ≠ "O2" → o'.status = o.status) :=
  handleRealtimeOrderUpdate_frame sampleOrders "O2" OrderStatus.READY

/-- C9: `switchRestaurant` is atomic: a gateway error or a not-found result
leaves the current profile, the cart, and the last-order record untouched;
only a successful fetch replaces the profile and clears the cart and the
last-order record. -/
theorem switchRestaurant_atomic (s : AppState)
    (res : Except String (Option RestaurantProfile)) :
    (∀ msg, res = Except.error msg →
      (switchRestaurant s res).currentRestaurant = s.currentRestaurant ∧
      (switchRestaurant s res).cart = s.cart ∧
      (switchRestaurant s res).lastOrder = s.lastOrder) ∧
    (res = Except.ok none →
      (switchRestaurant s res).currentRestaurant = s.currentRestaurant ∧
      (switchRestaurant s res).cart = s.cart ∧
      (switchRestaurant s res).lastOrder = s.lastOrder) ∧
    (∀ p, res = Except.ok (some p) →
      (switchRestaurant s res).currentRestaurant = some p ∧
      (switchRestaurant s res).cart = [] ∧
      (switchRestaurant s res).lastOrder = none) := by
  refine ⟨?_, ?_, ?_⟩
  · intro msg h
    subst h
    exact ⟨rfl, rfl, rfl⟩
  · intro h
    subst h
    exact ⟨rfl, rfl, rfl⟩
  · intro p h
    subst h
    exact ⟨rfl, rfl, rfl⟩

/-- Witness for C9: a not-found result at the sample state changes none of
profile, cart, last order. -/
theorem switchRestaurant_atomic_witness :
    ((Except.ok none : Except String (Option RestaurantProfile)) = Except.ok none) ∧
    ((switchRestaurant sampleStateAB (Except.ok none)).currentRestaurant =
      sampleStateAB.currentRestaurant ∧
     (switchRestaurant sampleStateAB (Except.ok none)).cart = sampleStateAB.cart ∧
     (switchRestaurant sampleStateAB (Except.ok none)).lastOrder =
      sampleStateAB.lastOrder) :=
  ⟨rfl, (switchRestaurant_atomic sampleStateAB (Except.ok none)).2.1 rfl⟩

/-- C4 counterexample: with `rid=A` in the search query and `rid=B` in the
hash-embedded query, `parseURLParams` resolves `B` — the hash value
overwrites the search value, so the search query does NOT take precedence. -/
theorem parseURL_search_not_preferred :
    parseURLRid { searchRid := some "A", searchTable := none,
                  hashHasQuery := true, hashRid := some "B",
                  hashTable := none } = some "B" ∧
    (some "B" : Option String) ≠ some "A" := by
  refine ⟨rfl, ?_⟩
  intro h
  simp at h

/-- C4 amended: the hash-embedded query string takes precedence — when the
hash carries a (truthy) `rid` / `table` value it is used, and the
search-query value is consulted only when the hash does not provide one. -/
theorem parseURL_precedence (u : URLLocation) :
    ((u.hashHasQuery && jsTruthyStr u.hashRid) = true →
      parseURLRid u = u.hashRid) ∧
    ((u.hashHasQuery && jsTruthyStr u.hashRid) = false →
      parseURLRid u = (if jsTruthyStr u.searchRid then u.searchRid else none)) ∧
    ((u.hashHasQuery && jsTruthyStr u.hashTable) = true →
      parseURLTable u = u.hashTable) ∧
    ((u.hashHasQuery && jsTruthyStr u.hashTable) = false →
      parseURLTable u = (if jsTruthyStr u.searchTable then u.searchTable else none)) := by
  unfold parseURLRid parseURLTable
  refine ⟨?_, ?_, ?_, ?_⟩ <;> intro h <;> simp [h]

/-- Witness for C4 (amended) at a concrete location carrying both parameter
sources. -/
theorem parseURL_precedence_witness :
    (let u : URLLocation := { searchRid := some "A", searchTable := some "3",
                              hashHasQuery := true, hashRid := some "B",
                              hashTable := none }
     ((u.hashHasQuery && jsTruthyStr u.hashRid) = true →
       parseURLRid u = u.hashRid) ∧
     ((u.hashHasQuery && jsTruthyStr u.hashRid) = false →
       parseURLRid u = (if jsTruthyStr u.searchRid then u.searchRid else none)) ∧
     ((u.hashHasQuery && jsTruthyStr u.hashTable) = true →
       parseURLTable u = u.hashTable) ∧
     ((u.hashHasQuery && jsTruthyStr u.hashTable) = false →
       parseURLTable u = (if jsTruthyStr u.searchTable then u.searchTable else none))) :=
  parseURL_precedence _

/-- C7: a proceeding `fetchOrders` call loads at most the fixed page size
(20) of rows, appends at most 20 orders to the list, and leaves
`hasMoreOrders` false exactly when the fetched page held fewer than 20
rows. -/
theorem fetchOrders_page_spec (s : OrdersState) (reset : Bool)
    (rows : List DbOrder) (hgo : reset = true ∨ s.hasMoreOrders = true) :
    (getActiveOrders rows (if reset then 0 else s.ordersPage + 1) 20).length ≤ 20 ∧
    (fetchOrders true s reset (Except.ok rows)).activeOrders.length ≤
      (if reset then 0 else s.activeOrders.length) + 20 ∧
    ((fetchOrders true s reset (Except.ok rows)).hasMoreOrders = false ↔
      (getActiveOrders rows (if reset then 0 else s.ordersPage + 1) 20).length < 20) := by
  have hlen : ∀ page : Nat, (getActiveOrders rows page 20).length ≤ 20 := by
    intro page
    unfold getActiveOrders
    rw [List.length_take]
    omega
  cases reset with
  | true =>
    simp only [eq_self_iff_true, if_true]
    have hred : fetchOrders true s true (Except.ok rows) =
        { activeOrders := (getActiveOrders rows 0 20).map transformOrder,
          ordersPage := 0,
          hasMoreOrders := (getActiveOrders rows 0 20).length == 20 } := rfl
    refine ⟨hlen 0, ?_, ?_⟩
    · rw [hred]
      show ((getActiveOrders rows 0 20).map transformOrder).length ≤ 0 + 20
      rw [List.length_map]
      have := hlen 0
      omega
    · rw [hred]
      show ((getActiveOrders rows 0 20).length == 20) = false ↔ _
      rw [beq_eq_false_iff_ne]
      have := hlen 0
      omega
  | false =>
    have hmore : s.hasMoreOrders = true := by
      rcases hgo with h | h
      · exact absurd h (by simp)
      · exact h
    simp only [Bool.false_eq_true, if_false]
    have hred : fetchOrders true s false (Except.ok rows) =
        { activeOrders := s.activeOrders ++
            (getActiveOrders rows (s.ordersPage + 1) 20).map transformOrder,
          ordersPage := s.ordersPage + 1,
          hasMoreOrders := (getActiveOrders rows (s.ordersPage + 1) 20).length == 20 } := by
      unfold fetchOrders
      simp [hmore]
    refine ⟨hlen (s.ordersPage + 1), ?_, ?_⟩
    · rw [hred]
      show (s.activeOrders ++ _).length ≤ _
      rw [List.length_append, List.length_map]
      have := hlen (s.ordersPage + 1)
      omega
    · rw [hred]
      show ((getActiveOrders rows (s.ordersPage + 1) 20).length == 20) = false ↔ _
      rw [beq_eq_false_iff_ne]
      have := hlen (s.ordersPage + 1)
      omega

/-- Witness for C7: loading a reset page over 21 stored rows fills the page
and reports more rows available. -/
theorem fetchOrders_page_spec_witness :
    ((true : Bool) = true ∨ (⟨[], 0, true⟩ : OrdersState).hasMoreOrders = true) ∧
    ((getActiveOrders sampleDbRows
        (if (true : Bool) then 0 else (⟨[], 0, true⟩ : OrdersState).ordersPage + 1)
        20).length ≤ 20 ∧
     (fetchOrders true (⟨[], 0, true⟩ : OrdersState) true
        (Except.ok sampleDbRows)).activeOrders.length ≤
       (if (true : Bool) then 0
        else (⟨[], 0, true⟩ : OrdersState).activeOrders.length) + 20 ∧
     ((fetchOrders true (⟨[], 0, true⟩ : OrdersState) true
        (Except.ok sampleDbRows)).hasMoreOrders = false ↔
       (getActiveOrders sampleDbRows
         (if (true : Bool) then 0 else (⟨[], 0, true⟩ : OrdersState).ordersPage + 1)
         20).length < 20)) :=
  ⟨Or.inl rfl, fetchOrders_page_spec ⟨[], 0, true⟩ true sampleDbRows (Or.inl rfl)⟩

theorem foldl_add_sum (f : CartItem → Rat) :
    ∀ (l : List CartItem) (a : Rat),
      l.foldl (fun sum i => sum + f i) a = a + (l.map f).sum := by
  intro l
  induction l with
  | nil =>
    intro a
    simp
  | cons x t ih =>
    intro a
    rw [List.foldl_cons, ih, List.map_cons, List.sum_cons]
    ring

theorem cartSubtotal_eq_sum (c : List CartItem) :
    cartSubtotal c = (c.map (fun i => i.price * (i.quantity : Rat))).sum := by
  unfold cartSubtotal
  rw [foldl_add_sum (fun i => i.price * (i.quantity : Rat)) c 0]
  ring

theorem listIsEmpty_false {α : Type} {l : List α} (h : l ≠ []) :
    l.isEmpty = false := by
  cases l with
  | nil => exact absurd rfl h
  | cons x t => rfl

theorem placeOrder_success_run (s : AppState) (b : PlaceOrderBackend)
    (r : RestaurantProfile) (tn tid orderId : String)
    (hr : s.currentRestaurant = some r) (htn : s.tableNumber = some tn)
    (hc : s.cart ≠ []) (htne : tn ≠ "")
    (hlk : b.tableLookup = some tid)
    (hoi : b.orderInsert = Except.ok orderId)
    (hit : b.itemsInsertError = none) :
    placeOrder s b =
      ({ s with
          cart := [], isCartOpen := false, isPlacingOrder := false,
          lastOrder := some
            { id := orderId, restaurantId := r.id, tableId := tn,
              items := s.cart, status := OrderStatus.PENDING,
              total := cartSubtotal s.cart + cartSubtotal s.cart * (5 / 100 : Rat),
              timestamp := b.now } },
       [BackendWrite.insertOrder r.id tid OrderStatus.PENDING
          (cartSubtotal s.cart + cartSubtotal s.cart * (5 / 100 : Rat)),
        BackendWrite.insertOrderItems (s.cart.map (fun item =>
          { order_id := orderId, menu_item_id := item.id,
            quantity := item.quantity, price := item.price }))]) := by
  have hce : s.cart.isEmpty = false := listIsEmpty_false hc
  have hte : tn.isEmpty = false := strIsEmpty_false htne
  unfold placeOrder resolveTableId
  rw [hr, htn, hlk, hoi, hit]
  simp [hce, hte]

/-- C8: a successful `placeOrder` records, both on the created order row and
on the confirmation receipt, a total of subtotal plus 5% tax, where the
subtotal is the sum over all cart lines of price times quantity. -/
theorem placeOrder_total (s : AppState) (b : PlaceOrderBackend)
    (r : RestaurantProfile) (tn tid orderId : String)
    (hr : s.currentRestaurant = some r) (htn : s.tableNumber = some tn)
    (hc : s.cart ≠ []) (htne : tn ≠ "")
    (hlk : b.tableLookup = some tid)
    (hoi : b.orderInsert = Except.ok orderId)
    (hit : b.itemsInsertError = none) :
    (placeOrder s b).2 =
      [BackendWrite.insertOrder r.id tid OrderStatus.PENDING
         ((s.cart.map (fun i => i.price * (i.quantity : Rat))).sum
           + (s.cart.map (fun i => i.price * (i.quantity : Rat))).sum * (5 / 100)),
       BackendWrite.insertOrderItems (s.cart.map (fun item =>
         { order_id := orderId, menu_item_id := item.id,
           quantity := item.quantity, price := item.price }))] ∧
    (placeOrder s b).1.lastOrder = some
      { id := orderId, restaurantId := r.id, tableId := tn, items := s.cart,
        status := OrderStatus.PENDING,
        total := (s.cart.map (fun i => i.price * (i.quantity : Rat))).sum
          + (s.cart.map (fun i => i.price * (i.quantity : Rat))).sum * (5 / 100),
        timestamp := b.now } := by
  rw [placeOrder_success_run s b r tn tid orderId hr htn hc htne hlk hoi hit]
  rw [cartSubtotal_eq_sum]
  exact ⟨rfl, rfl⟩

/-- Witness for C8: the scenario cart {A, qty 2, price 100}, {B, qty 1,
price 50} yields subtotal 250, 5% tax 12.5, and a recorded total of 262.5
(= 525/2) on both the order write and the receipt. -/
theorem placeOrder_total_witness :
    sampleStateAB.cart ≠ [] ∧ ("5" : String) ≠ "" ∧
    (placeOrder sampleStateAB sampleBackendOk).2 =
      [BackendWrite.insertOrder "R1" "TID1" OrderStatus.PENDING (525 / 2 : Rat),
       BackendWrite.insertOrderItems
         [{ order_id := "O9", menu_item_id := "A", quantity := 2, price := 100 },
          { order_id := "O9", menu_item_id := "B", quantity := 1, price := 50 }]] ∧
    (placeOrder sampleStateAB sampleBackendOk).1.lastOrder = some
      { id := "O9", restaurantId := "R1", tableId := "5", items := sampleCartAB,
        status := OrderStatus.PENDING, total := (525 / 2 : Rat),
        timestamp := 1000 } := by
  have h := placeOrder_total sampleStateAB sampleBackendOk sampleRestaurant
    "5" "TID1" "O9" rfl rfl (by decide) (by decide) rfl rfl rfl
  refine ⟨by decide, by decide, ?_, ?_⟩
  · rw [h.1]
    simp only [sampleStateAB, sampleCartAB, sampleRestaurant]
    norm_num
  · rw [h.2]
    simp only [sampleStateAB, sampleCartAB, sampleRestaurant, sampleBackendOk]
    norm_num

theorem placeOrder_tableId_indep (s : AppState) (b : PlaceOrderBackend)
    (t : Option String) :
    placeOrder { s with tableId := t } b =
      ({ (placeOrder s b).1 with tableId := t }, (placeOrder s b).2) := by
  obtain ⟨vm, il, er, ip, cr, tid0, tn0, ct, co, lo⟩ := s
  cases cr with
  | none => rfl
  | some r =>
    cases tn0 with
    | none => rfl
    | some tn =>
      by_cases hg : (ct.isEmpty || tn.isEmpty) = true
      · simp [placeOrder, hg]
      · cases hl : b.tableLookup with
        | some tid2 =>
          cases ho : b.orderInsert with
          | error e => simp [placeOrder, resolveTableId, hg, hl, ho]
          | ok oid =>
            cases hi : b.itemsInsertError with
            | some e => simp [placeOrder, resolveTableId, hg, hl, ho, hi]
            | none => simp [placeOrder, resolveTableId, hg, hl, ho, hi]
        | none =>
          cases hti : b.tableInsert with
          | error e => simp [placeOrder, resolveTableId, hg, hl, hti]
          | ok tid2 =>
            cases ho : b.orderInsert with
            | error e => simp [placeOrder, resolveTableId, hg, hl, hti, ho]
            | ok oid =>
              cases hi : b.itemsInsertError with
              | some e => simp [placeOrder, resolveTableId, hg, hl, hti, ho, hi]
              | none => simp [placeOrder, resolveTableId, hg, hl, hti, ho, hi]

theorem placeOrder_no_writes_of_falsy (s : AppState) (b : PlaceOrderBackend)
    (h : jsTruthyStr s.tableNumber = false) : (placeOrder s b).2 = [] := by
  cases hr : s.currentRestaurant with
  | none => simp [placeOrder, hr]
  | some r =>
    cases htn : s.tableNumber with
    | none => simp [placeOrder, hr, htn]
    | some tn =>
      rw [htn] at h
      have hte : tn.isEmpty = true := by
        unfold jsTruthyStr at h
        simpa using h
      simp [placeOrder, hr, htn, hte]

theorem placeOrder_writes_of_truthy (s : AppState) (b : PlaceOrderBackend)
    (r : RestaurantProfile) (tn : String)
    (hr : s.currentRestaurant = some r) (htn : s.tableNumber = some tn)
    (hc : s.cart ≠ []) (htne : tn ≠ "") : (placeOrder s b).2 ≠ [] := by
  have hce : s.cart.isEmpty = false := listIsEmpty_false hc
  have hte : tn.isEmpty = false := strIsEmpty_false htne
  unfold placeOrder resolveTableId
  rw [hr, htn]
  cases hl : b.tableLookup with
  | some tid2 =>
    cases ho : b.orderInsert with
    | error e => simp [hce, hte]
    | ok oid =>
      cases hi : b.itemsInsertError with
      | some e => simp [hce, hte]
      | none => simp [hce, hte]
  | none =>
    cases hti : b.tableInsert with
    | error e => simp [hce, hte]
    | ok tid2 =>
      cases ho : b.orderInsert with
      | error e => simp [hce, hte]
      | ok oid =>
        cases hi : b.itemsInsertError with
        | some e => simp [hce, hte]
        | none => simp [hce, hte]

theorem placeOrder_insertTable_mem (s : AppState) (b : PlaceOrderBackend)
    (r : RestaurantProfile) (tn : String)
    (hr : s.currentRestaurant = some r) (htn : s.tableNumber = some tn)
    (hc : s.cart ≠ []) (htne : tn ≠ "")
    (hl : b.tableLookup = none) :
    BackendWrite.insertTable r.id tn ∈ (placeOrder s b).2 := by
  have hce : s.cart.isEmpty = false := listIsEmpty_false hc
  have hte : tn.isEmpty = false := strIsEmpty_false htne
  unfold placeOrder resolveTableId
  rw [hr, htn, hl]
  cases hti : b.tableInsert with
  | error e => simp [hce, hte]
  | ok tid2 =>
    cases ho : b.orderInsert with
    | error e => simp [hce, hte]
    | ok oid =>
      cases hi : b.itemsInsertError with
      | some e => simp [hce, hte]
      | none => simp [hce, hte]

/-- C10 counterexample: with a non-empty cart, a current restaurant, and a
non-null but empty table display number, `placeOrder` issues no backend
write — so "proceeds iff `tableNumber` is non-null" is false as stated. -/
theorem placeOrder_nonNull_not_sufficient :
    ({ sampleStateAB with tableNumber := some "" } : AppState).tableNumber ≠ none ∧
    ({ sampleStateAB with tableNumber := some "" } : AppState).cart ≠ [] ∧
    ({ sampleStateAB with tableNumber := some "" } : AppState).currentRestaurant ≠ none ∧
    (placeOrder { sampleStateAB with tableNumber := some "" } sampleBackendOk).2 = [] := by
  refine ⟨by decide, by decide, ?_, rfl⟩
  intro h
  simp [sampleStateAB] at h

/-- C10 amended: `placeOrder` never reads the stored canonical `tableId` —
its result is invariant in that field; given a non-empty cart and a current
restaurant it issues backend writes exactly when the table display number is
non-null and non-empty (truthy); and it resolves the display number freshly,
issuing a table-row insert when the lookup misses, instead of using the
stored `tableId`. -/
theorem placeOrder_ignores_tableId (s : AppState) (b : PlaceOrderBackend) :
    (∀ t, placeOrder { s with tableId := t } b =
      ({ (placeOrder s b).1 with tableId := t }, (placeOrder s b).2)) ∧
    (s.cart ≠ [] → s.currentRestaurant ≠ none →
      ((placeOrder s b).2 ≠ [] ↔ ∃ tn, s.tableNumber = some tn ∧ tn ≠ "") ∧
      (∀ r tn, s.currentRestaurant = some r → s.tableNumber = some tn →
        tn ≠ "" → b.tableLookup = none →
        BackendWrite.insertTable r.id tn ∈ (placeOrder s b).2)) := by
  refine ⟨fun t => placeOrder_tableId_indep s b t, fun hc hcr => ⟨⟨?_, ?_⟩, ?_⟩⟩
  · intro hw
    cases htn : s.tableNumber with
    | none =>
      exact absurd (placeOrder_no_writes_of_falsy s b (by rw [htn]; rfl)) hw
    | some tn =>
      refine ⟨tn, rfl, ?_⟩
      intro he
      subst he
      exact hw (placeOrder_no_writes_of_falsy s b (by rw [htn]; rfl))
  · rintro ⟨tn, htn, htne⟩
    cases hcrv : s.currentRestaurant with
    | none => exact absurd hcrv hcr
    | some r => exact placeOrder_writes_of_truthy s b r tn hcrv htn hc htne
  · intro r tn hr htn htne hl
    exact placeOrder_insertTable_mem s b r tn hr htn hc htne hl

/-- Witness for C10 (amended): a run at the sample table where the table
lookup misses — the write list is non-empty and contains the table insert,
independently of the stored `tableId`. -/
theorem placeOrder_ignores_tableId_witness :
    sampleStateAB.cart ≠ [] ∧ sampleStateAB.currentRestaurant ≠ none ∧
    ((placeOrder sampleStateAB sampleBackendCreate).2 ≠ [] ↔
      ∃ tn, sampleStateAB.tableNumber = some tn ∧ tn ≠ "") ∧
    BackendWrite.insertTable "R1" "5" ∈
      (placeOrder sampleStateAB sampleBackendCreate).2 := by
  have hc : sampleStateAB.cart ≠ [] := by decide
  have hcr : sampleStateAB.currentRestaurant ≠ none := by
    intro h
    simp [sampleStateAB] at h
  have h := (placeOrder_ignores_tableId sampleStateAB sampleBackendCreate).2 hc hcr
  refine ⟨hc, hcr, h.1, ?_⟩
  have hm := h.2 sampleRestaurant "5" rfl rfl (by decide) rfl
  simpa [sampleRestaurant] using hm
